/-
Verification of the factorylm PLC-Modbus core against its specification.

The Python sources under services/plc-modbus are shallowly embedded:
pure computations become Lean functions, stateful objects become explicit
state records threaded through the operations, exceptions become `Except`,
and the `random` module is modelled by an explicit entropy stream consumed
by an index stored in the state.  Wall-clock time (sleeps, timestamps) is
not modelled; it never influences the values computed.
-/

import Mathlib

namespace FactoryLM

/-! ## Connection manager: exponential backoff
    From `factorylm_plc/connection_manager.py`, `PLCConnectionManager._calculate_backoff`:
    `delay = self.retry_delay * (2 ** min(self._consecutive_failures, 5))`
    `return min(delay, self.MAX_BACKOFF_DELAY)` with `MAX_BACKOFF_DELAY = 30.0`. -/

/-- `PLCConnectionManager.MAX_BACKOFF_DELAY` (30.0 seconds). -/
def MAX_BACKOFF_DELAY : ℚ := 30

/-- `PLCConnectionManager._calculate_backoff`, as a function of the base
    `retry_delay` and the current `_consecutive_failures` count. -/
def calculateBackoff (retryDelay : ℚ) (consecutiveFailures : Nat) : ℚ :=
  min (retryDelay * 2 ^ min consecutiveFailures 5) MAX_BACKOFF_DELAY

/-! ## MockPLC (`factorylm_plc/mock_plc.py`)
    The simulated protocol client.  Registers and coils are Python dicts read
    with defaults `0` / `False` (`.get(addr, 0)` / `.get(addr, False)`), so the
    stores are embedded as total functions `Int → Int` / `Int → Bool`.
    `random.randint` / `random.random() < 0.1` / `random.choice` are driven by
    an explicit entropy stream; the state carries the next stream indices. -/

/-- Errors raised by the embedded Python code. -/
inductive PyErr where
  | connectionError (msg : String)
  | ioError (msg : String)
  | valueError (msg : String)
  deriving DecidableEq, Repr

instance {ε α : Type} [DecidableEq ε] [DecidableEq α] : DecidableEq (Except ε α) := fun x y =>
  match x, y with
  | .ok a, .ok b =>
      if h : a = b then .isTrue (by rw [h]) else .isFalse (by simp [h])
  | .error a, .error b =>
      if h : a = b then .isTrue (by rw [h]) else .isFalse (by simp [h])
  | .ok _, .error _ => .isFalse (by simp)
  | .error _, .ok _ => .isFalse (by simp)

/-- Entropy source standing for Python's `random` module: one stream for
    `randint` draws, one for boolean draws (`random() < 0.1`, `choice`). -/
structure Entropy where
  nat : Nat → Nat
  bool : Nat → Bool

/-- `random.randint(lo, hi)`: a value in `[lo, hi]` selected by the raw draw `r`. -/
def randint (lo hi : Int) (r : Nat) : Int :=
  lo + Int.ofNat (r % (hi - lo + 1).toNat)

/-- State of one `MockPLC` instance: `_connected`, `_registers`, `_coils`,
    plus the entropy-stream cursors. -/
structure MockState where
  connected : Bool
  registers : Int → Int
  coils : Int → Bool
  natIdx : Nat
  boolIdx : Nat

/-- Register/coil store after `MockPLC.__init__` with no `initial_state`
    override (registers 100..105 = 0, 0, 250, 100, 0, 0; coils 0..6 with only
    `COIL_MOTOR_STOPPED` (1) set). -/
def mockInit : MockState where
  connected := false
  registers := fun a =>
    if a = 100 then 0 else if a = 101 then 0 else if a = 102 then 250
    else if a = 103 then 100 else if a = 104 then 0 else if a = 105 then 0 else 0
  coils := fun a => if a = 1 then true else false
  natIdx := 0
  boolIdx := 0

/-- `MockPLC.connect`: always succeeds and returns `True`. -/
def mockConnect (s : MockState) : Bool × MockState :=
  (true, { s with connected := true })

/-- `MockPLC.disconnect`. -/
def mockDisconnect (s : MockState) : MockState :=
  { s with connected := false }

/-- First half of `MockPLC._simulate_behavior` (the motor/temperature update).
    When the motor-running coil (0) is set and speed (reg. 100) is positive,
    motor current (reg. 101) becomes `max(0, int(speed*0.5) + randint(-5,5))`
    and, while below 800, temperature (reg. 102) rises by `randint(1,3)` capped
    at 800; otherwise temperature above 250 cools by `randint(1,5)` floored at
    250. -/
def simulateMotor (E : Entropy) (s : MockState) : MockState :=
  let motorRunning := s.coils 0
  let speed := s.registers 100
  let temp := s.registers 102
  if motorRunning = true ∧ 0 < speed then
    let baseCurrent := Int.tdiv speed 2
    let noise := randint (-5) 5 (E.nat s.natIdx)
    let sA : MockState :=
      { s with
        registers := fun a => if a = 101 then max 0 (baseCurrent + noise) else s.registers a
        natIdx := s.natIdx + 1 }
    if temp < 800 then
      let inc := randint 1 3 (E.nat sA.natIdx)
      { sA with
        registers := fun a => if a = 102 then min 800 (temp + inc) else sA.registers a
        natIdx := sA.natIdx + 1 }
    else sA
  else
    if 250 < temp then
      let dec := randint 1 5 (E.nat s.natIdx)
      { s with
        registers := fun a => if a = 102 then max 250 (temp - dec) else s.registers a
        natIdx := s.natIdx + 1 }
    else s

/-- Second half of `MockPLC._simulate_behavior` (the sensor toggling).  When
    the conveyor coil (3) is set, each sensor coil (4, 5) is re-drawn with
    probability 0.1. -/
def simulateSensors (E : Entropy) (s1 : MockState) : MockState :=
  if s1.coils 3 = true then
    let s2 : MockState :=
      if E.bool s1.boolIdx = true then
        { s1 with
          coils := fun a => if a = 4 then E.bool (s1.boolIdx + 1) else s1.coils a
          boolIdx := s1.boolIdx + 2 }
      else { s1 with boolIdx := s1.boolIdx + 1 }
    if E.bool s2.boolIdx = true then
      { s2 with
        coils := fun a => if a = 5 then E.bool (s2.boolIdx + 1) else s2.coils a
        boolIdx := s2.boolIdx + 2 }
    else { s2 with boolIdx := s2.boolIdx + 1 }
  else s1

/-- `MockPLC._simulate_behavior`: one full simulation step. -/
def simulate (E : Entropy) (s : MockState) : MockState :=
  simulateSensors E (simulateMotor E s)

/-- `MockPLC.read_holding_registers`: checks connectivity, runs one simulation
    step, then returns `count` values starting at `address` (missing addresses
    read as 0). -/
def mockReadHoldingRegisters (E : Entropy) (address : Int) (count : Int)
    (s : MockState) : Except PyErr (List Int) × MockState :=
  if s.connected = false then
    (.error (.connectionError "MockPLC is not connected"), s)
  else
    let s1 := simulate E s
    (.ok ((List.range count.toNat).map fun i => s1.registers (address + Int.ofNat i)), s1)

/-- `MockPLC.read_coils`: checks connectivity, then returns `count` coil values
    starting at `address` (missing addresses read as `False`).  Note: unlike
    the register read, it runs no simulation step. -/
def mockReadCoils (address : Int) (count : Int)
    (s : MockState) : Except PyErr (List Bool) × MockState :=
  if s.connected = false then
    (.error (.connectionError "MockPLC is not connected"), s)
  else
    (.ok ((List.range count.toNat).map fun i => s.coils (address + Int.ofNat i)), s)

/-- `MockPLC.write_register`: stores the value; when the motor-speed register
    (100) is written, the motor-stopped coil (1) becomes `value == 0`. -/
def mockWriteRegister (address value : Int)
    (s : MockState) : Except PyErr Bool × MockState :=
  if s.connected = false then
    (.error (.connectionError "MockPLC is not connected"), s)
  else
    let s1 := { s with registers := fun a => if a = address then value else s.registers a }
    let s2 :=
      if address = 100 then
        { s1 with coils := fun a => if a = 1 then decide (value = 0) else s1.coils a }
      else s1
    (.ok true, s2)

/-- `MockPLC.write_coil`: stores the value; writing the motor-running coil (0)
    sets motor-stopped (1) to its negation and, when turning the motor off,
    zeroes motor speed (100) and current (101); writing motor-stopped (1) sets
    motor-running (0) to its negation. -/
def mockWriteCoil (address : Int) (value : Bool)
    (s : MockState) : Except PyErr Bool × MockState :=
  if s.connected = false then
    (.error (.connectionError "MockPLC is not connected"), s)
  else
    let s1 := { s with coils := fun a => if a = address then value else s.coils a }
    let s2 :=
      if address = 0 then
        let sA := { s1 with coils := fun a => if a = 1 then !value else s1.coils a }
        if value = false then
          { sA with
            registers := fun a => if a = 100 then 0 else if a = 101 then 0 else sA.registers a }
        else sA
      else if address = 1 then
        { s1 with coils := fun a => if a = 0 then !value else s1.coils a }
      else s1
    (.ok true, s2)

/-- The snapshot record built by `MockPLC.read_state` (from
    `factorylm_plc/models.py`'s `FactoryState`); the wall-clock `timestamp`
    field is not modelled. -/
structure FactoryState where
  motor_running : Bool
  motor_speed : Int
  motor_current : ℚ
  temperature : ℚ
  pressure : Int
  fault_active : Bool
  conveyor_speed : Int
  conveyor_running : Bool
  sensor_1_active : Bool
  sensor_2_active : Bool
  e_stop_active : Bool
  error_code : Int
  scene_name : String
  deriving DecidableEq, Repr

/-- `MockPLC.read_state`: checks connectivity, runs a simulation step, then
    reads registers 100..105 (which itself runs a further simulation step) and
    coils 0..6, and assembles the scaled snapshot. -/
def mockReadState (E : Entropy) (s : MockState) :
    Except PyErr FactoryState × MockState :=
  if s.connected = false then
    (.error (.connectionError "MockPLC is not connected"), s)
  else
    let s1 := simulate E s
    match mockReadHoldingRegisters E 100 6 s1 with
    | (.error e, s') => (.error e, s')
    | (.ok registers, s2) =>
      match mockReadCoils 0 7 s2 with
      | (.error e, s') => (.error e, s')
      | (.ok coils, s3) =>
        (.ok {
          motor_running := coils.getD 0 false
          motor_speed := registers.getD 0 0
          motor_current := (registers.getD 1 0 : ℚ) / 10
          temperature := (registers.getD 2 0 : ℚ) / 10
          pressure := registers.getD 3 0
          fault_active := coils.getD 2 false
          conveyor_speed := registers.getD 4 0
          conveyor_running := coils.getD 3 false
          sensor_1_active := coils.getD 4 false
          sensor_2_active := coils.getD 5 false
          e_stop_active := coils.getD 6 false
          error_code := registers.getD 5 0
          scene_name := "sorting_station" }, s3)

/-- A connected state used to exhibit that coil reads skip the simulation
    step: motor running at speed 50, current 0, temperature 250 (25.0 C). -/
def c7State : MockState where
  connected := true
  registers := fun a =>
    if a = 100 then 50 else if a = 102 then 250 else if a = 103 then 100 else 0
  coils := fun a => if a = 0 then true else false
  natIdx := 0
  boolIdx := 0

/-- A fixed entropy stream (all draws = low end / `False`). -/
def zeroEntropy : Entropy where
  nat := fun _ => 0
  bool := fun _ => false

/-! ## PLCConnectionManager (`factorylm_plc/connection_manager.py`)
    The wrapped client and the caller-supplied closures are abstracted by
    outcome scripts indexed by invocation count: `connectScript n` is the
    outcome of the n-th `client.connect()` call, `fscript n` / `wscript n` the
    outcome of the n-th closure invocation.  Sleeps are not modelled; the
    backoff amount slept is `calculateBackoff` above and never feeds back into
    any computed value. -/

/-- Outcome of one `client.connect()` call: returns `True`, returns a falsy
    value, or raises. -/
inductive ConnectOutcome where
  | ok
  | fail
  | exn (msg : String)
  deriving DecidableEq, Repr

/-- Outcome of one read-closure invocation. -/
inductive ReadOutcome where
  | ok (v : Int)
  | raiseConn (msg : String)
  | raiseIOError (msg : String)
  deriving DecidableEq, Repr

/-- Outcome of one write-closure invocation: a returned boolean, or a raise. -/
inductive WriteOutcome where
  | ret (b : Bool)
  | raiseConn (msg : String)
  | raiseIOError (msg : String)
  deriving DecidableEq, Repr

/-- `PLCConnectionManager.DEFAULT_RETRY_COUNT`. -/
def DEFAULT_RETRY_COUNT : Nat := 3

/-- `PLCConnectionManager.DEFAULT_RETRY_DELAY`. -/
def DEFAULT_RETRY_DELAY : ℚ := 1

/-- The manager's immutable configuration (`retry_count`, `retry_delay`,
    `auto_reconnect`). -/
structure RetryConfig where
  retryCount : Nat
  retryDelay : ℚ
  autoReconnect : Bool
  deriving DecidableEq, Repr

/-- Mutable state of a manager plus its wrapped client: the client's liveness
    (`client.is_connected()`), the number of `client.connect()` calls and
    closure invocations so far, and the manager's `_connected`,
    `_consecutive_failures` and `_last_error` attributes. -/
structure CMState where
  clientConnected : Bool
  connectCalls : Nat
  funcCalls : Nat
  connected : Bool
  consecutiveFailures : Nat
  lastError : Option PyErr
  deriving DecidableEq, Repr

/-- A freshly constructed manager wrapping a never-connected client. -/
def cmInit : CMState where
  clientConnected := false
  connectCalls := 0
  funcCalls := 0
  connected := false
  consecutiveFailures := 0
  lastError := none

/-- The `for attempt in range(self.retry_count)` loop of `ensure_connected`,
    counting down the remaining attempts.  A successful `connect()` sets the
    manager connected, zeroes `_consecutive_failures` and clears `_last_error`;
    a falsy return just moves to the next attempt; a raise records the error.
    Exhausting the attempts increments `_consecutive_failures` once and leaves
    the manager disconnected. -/
def ensureLoop (script : Nat → ConnectOutcome) : Nat → CMState → Bool × CMState
  | 0, s =>
      (false, { s with consecutiveFailures := s.consecutiveFailures + 1, connected := false })
  | n + 1, s =>
      match script s.connectCalls with
      | .ok =>
          (true, { s with
            clientConnected := true
            connectCalls := s.connectCalls + 1
            connected := true
            consecutiveFailures := 0
            lastError := none })
      | .fail => ensureLoop script n { s with connectCalls := s.connectCalls + 1 }
      | .exn msg =>
          ensureLoop script n
            { s with
              connectCalls := s.connectCalls + 1
              lastError := some (.connectionError msg) }

/-- `PLCConnectionManager.ensure_connected`: immediate success when the client
    already reports connected; failure without any connect call when
    `auto_reconnect` is off; otherwise the retry loop. -/
def ensureConnected (cfg : RetryConfig) (script : Nat → ConnectOutcome)
    (s : CMState) : Bool × CMState :=
  if s.clientConnected = true then (true, { s with connected := true })
  else if cfg.autoReconnect = false then (false, s)
  else ensureLoop script cfg.retryCount s

/-- The `except ConnectionError` handler shared by `read_with_retry` and
    `write_with_retry`: mark the manager disconnected, bump
    `_consecutive_failures`, remember `ConnectionError("Connection lost")`. -/
def onConnLost (s : CMState) : CMState :=
  { s with
    connected := false
    consecutiveFailures := s.consecutiveFailures + 1
    lastError := some (.connectionError "Connection lost") }

/-- The attempt loop of `PLCConnectionManager.read_with_retry`, counting down
    remaining attempts (`n = 0` inside a step means this is the final attempt,
    i.e. `attempt == retry_count - 1`).  A failed `ensure_connected` raises
    `ConnectionError("Unable to connect to PLC")` which the loop's own
    `except ConnectionError` handler catches; only on the final attempt is the
    caught error re-raised to the caller. -/
def readLoop (cfg : RetryConfig) (cscript : Nat → ConnectOutcome)
    (fscript : Nat → ReadOutcome) : Nat → CMState → Except PyErr Int × CMState
  | 0, s => (.error (.ioError "Operation failed after all retries"), s)
  | n + 1, s =>
      let p := ensureConnected cfg cscript s
      if p.1 = false then
        let s2 := onConnLost p.2
        if n = 0 then (.error (.connectionError "Unable to connect to PLC"), s2)
        else readLoop cfg cscript fscript n s2
      else
        match fscript p.2.funcCalls with
        | .ok v =>
            (.ok v, { p.2 with funcCalls := p.2.funcCalls + 1, consecutiveFailures := 0 })
        | .raiseConn msg =>
            let s2 := onConnLost { p.2 with funcCalls := p.2.funcCalls + 1 }
            if n = 0 then (.error (.connectionError msg), s2)
            else readLoop cfg cscript fscript n s2
        | .raiseIOError msg =>
            let s2 := { p.2 with
              funcCalls := p.2.funcCalls + 1
              consecutiveFailures := p.2.consecutiveFailures + 1
              lastError := some (.ioError msg) }
            if n = 0 then (.error (.ioError msg), s2)
            else readLoop cfg cscript fscript n s2

/-- `PLCConnectionManager.read_with_retry`. -/
def readWithRetry (cfg : RetryConfig) (cscript : Nat → ConnectOutcome)
    (fscript : Nat → ReadOutcome) (s : CMState) : Except PyErr Int × CMState :=
  readLoop cfg cscript fscript cfg.retryCount s

/-- The attempt loop of `PLCConnectionManager.write_with_retry`.  A truthy
    closure return succeeds; a falsy one raises
    `IOError("Write operation returned False")`, handled by the `except
    IOError` branch like any transaction failure; exhausting the loop without
    entering it (`retry_count = 0`) falls through to `return False`. -/
def writeLoop (cfg : RetryConfig) (cscript : Nat → ConnectOutcome)
    (wscript : Nat → WriteOutcome) : Nat → CMState → Except PyErr Bool × CMState
  | 0, s => (.ok false, s)
  | n + 1, s =>
      let p := ensureConnected cfg cscript s
      if p.1 = false then
        let s2 := onConnLost p.2
        if n = 0 then (.error (.connectionError "Unable to connect to PLC"), s2)
        else writeLoop cfg cscript wscript n s2
      else
        match wscript p.2.funcCalls with
        | .ret true =>
            (.ok true, { p.2 with funcCalls := p.2.funcCalls + 1, consecutiveFailures := 0 })
        | .ret false =>
            let s2 := { p.2 with
              funcCalls := p.2.funcCalls + 1
              consecutiveFailures := p.2.consecutiveFailures + 1
              lastError := some (.ioError "Write operation returned False") }
            if n = 0 then (.error (.ioError "Write operation returned False"), s2)
            else writeLoop cfg cscript wscript n s2
        | .raiseConn msg =>
            let s2 := onConnLost { p.2 with funcCalls := p.2.funcCalls + 1 }
            if n = 0 then (.error (.connectionError msg), s2)
            else writeLoop cfg cscript wscript n s2
        | .raiseIOError msg =>
            let s2 := { p.2 with
              funcCalls := p.2.funcCalls + 1
              consecutiveFailures := p.2.consecutiveFailures + 1
              lastError := some (.ioError msg) }
            if n = 0 then (.error (.ioError msg), s2)
            else writeLoop cfg cscript wscript n s2

/-- `PLCConnectionManager.write_with_retry`. -/
def writeWithRetry (cfg : RetryConfig) (cscript : Nat → ConnectOutcome)
    (wscript : Nat → WriteOutcome) (s : CMState) : Except PyErr Bool × CMState :=
  writeLoop cfg cscript wscript cfg.retryCount s

/-! ## PLCConnectionService (`backend/services/plc_connection.py`) -/

/-- `PLCConnectionService.COIL_NAMES`. -/
def COIL_NAMES : List (Int × String) :=
  [(0, "motor_running"), (1, "motor_stopped"), (2, "fault_alarm"),
   (3, "conveyor_running"), (4, "sensor_1_active"), (5, "sensor_2_active"),
   (6, "e_stop_active"), (7, "DI_00"), (8, "DI_01"), (9, "DI_02"),
   (10, "DI_03"), (11, "DI_04"), (12, "DI_05"), (13, "DI_06"), (14, "DI_07"),
   (15, "DO_00"), (16, "DO_01"), (17, "DO_03")]

/-- `self.COIL_NAMES.get(address, f"coil_{address}")`. -/
def coilName (address : Int) : String :=
  match COIL_NAMES.lookup address with
  | some n => n
  | none => "coil_" ++ toString address

/-- `PLCConnectionService.WRITABLE_COILS`:
    `list(range(0, 7)) + [15, 16, 17]`. -/
def WRITABLE_COILS : List Int :=
  (List.range 7).map Int.ofNat ++ [15, 16, 17]

/-- The dict returned by `PLCConnectionService.write_coil` on success. -/
structure WriteCoilResponse where
  success : Bool
  address : Int
  value : Bool
  name : String
  deriving DecidableEq, Repr

/-- `PLCConnectionService.write_coil`, as a function of the service's
    connectivity and of the boolean the underlying client's `write_coil`
    would return.  The second component counts the `client.write_coil` calls
    issued (`_last_seen` is a wall-clock timestamp and is not modelled). -/
def svcWriteCoil (connected : Bool) (clientWriteResult : Bool)
    (address : Int) (value : Bool) : Except PyErr WriteCoilResponse × Nat :=
  if connected = false then
    (.error (.connectionError "Not connected to PLC"), 0)
  else if address ∉ WRITABLE_COILS then
    (.error (.valueError ("Address " ++ toString address
      ++ " is not writable. Writable: " ++ toString WRITABLE_COILS)), 0)
  else
    (.ok { success := clientWriteResult, address := address, value := value,
           name := coilName address }, 1)

/-! ## NetworkScanner (`backend/services/network_scanner.py`) and the
    `/setup/scan-network` route (`backend/routes/setup.py`).
    Probing is network I/O; `get_online_devices` is embedded as a function of
    the list of `ScanResult`s that `scan_subnet` collects (in completion
    order), and the route as a function of the results the scanner would
    collect for the requested range.  Wall-clock durations are not modelled. -/

/-- `backend/models/scan_models.py` `ScanResult`. -/
structure ScanResult where
  ip : String
  port : Int
  status : String
  response_time_ms : Option ℚ
  error_message : Option String
  deriving DecidableEq, Repr

/-- `backend/models/scan_models.py` `DeviceInfo`. -/
structure DeviceInfo where
  ip : String
  port : Int
  status : String
  response_time_ms : ℚ
  deriving DecidableEq, Repr

/-- The key order used by `online_devices.sort(key=lambda d: d.response_time_ms)`. -/
def devLe (a b : DeviceInfo) : Prop :=
  a.response_time_ms ≤ b.response_time_ms

instance : DecidableRel devLe := fun a b =>
  inferInstanceAs (Decidable (a.response_time_ms ≤ b.response_time_ms))

instance : IsTotal DeviceInfo devLe :=
  ⟨fun a b => le_total a.response_time_ms b.response_time_ms⟩

instance : IsTrans DeviceInfo devLe :=
  ⟨fun _ _ _ h1 h2 => le_trans h1 h2⟩

/-- The list comprehension in `get_online_devices`: keep the `online` results
    and project them to `DeviceInfo` (`r.response_time_ms or 0.0`). -/
def projectOnline (results : List ScanResult) : List DeviceInfo :=
  (results.filter fun r => r.status == "online").map fun r =>
    { ip := r.ip, port := r.port, status := "online",
      response_time_ms := r.response_time_ms.getD 0 }

/-- `NetworkScanner.get_online_devices`, as a function of the collected scan
    results: filter to online, project, sort ascending by response time
    (Python's stable `list.sort` is embedded as a stable insertion sort), and
    report `len(results)` as the scanned count. -/
def get_online_devices (results : List ScanResult) : List DeviceInfo × Nat :=
  (List.insertionSort devLe (projectOnline results), results.length)

/-- `backend/models/scan_models.py` `ScanRequest` (the `end` field is renamed
    `endSuffix`; `end` is reserved in Lean). -/
structure ScanRequest where
  subnet : String
  start : Int
  endSuffix : Int
  timeout : ℚ
  deriving DecidableEq, Repr

/-- `backend/models/scan_models.py` `ScanResponse` (`scan_time_seconds` is a
    wall-clock duration and is not modelled). -/
structure ScanResponse where
  devices : List DeviceInfo
  count : Nat
  online_count : Nat
  subnet_scanned : String
  deriving DecidableEq, Repr

/-- FastAPI's `HTTPException` payload. -/
structure HTTPError where
  status_code : Nat
  detail : String
  deriving DecidableEq, Repr

/-- The `/setup/scan-network` handler `scan_network`, as a function of the
    probe results the constructed scanner would collect for the requested
    range.  The boolean records whether the scanner was invoked at all (no
    probe, hence no network I/O, happens when it is `false`). -/
def scan_network (scanResults : String → Int → Int → List ScanResult)
    (req : ScanRequest) : Except HTTPError ScanResponse × Bool :=
  if req.start > req.endSuffix then
    (.error { status_code := 400,
              detail := "start (" ++ toString req.start ++ ") must be <= end ("
                ++ toString req.endSuffix ++ ")" }, false)
  else
    let p := get_online_devices (scanResults req.subnet req.start req.endSuffix)
    (.ok { devices := p.1, count := p.2, online_count := p.1.length,
           subnet_scanned := req.subnet ++ "." ++ toString req.start
             ++ "-" ++ toString req.endSuffix }, true)

end FactoryLM

/-- The motor half of a simulation step never changes the connection flag. -/
theorem FactoryLM.simulateMotor_connected (E : FactoryLM.Entropy) (s : FactoryLM.MockState) :
    (FactoryLM.simulateMotor E s).connected = s.connected := by
  unfold FactoryLM.simulateMotor
  dsimp only
  repeat' split
  all_goals rfl

/-- The sensor half of a simulation step never changes the connection flag. -/
theorem FactoryLM.simulateSensors_connected (E : FactoryLM.Entropy) (s : FactoryLM.MockState) :
    (FactoryLM.simulateSensors E s).connected = s.connected := by
  unfold FactoryLM.simulateSensors
  dsimp only
  repeat' split
  all_goals rfl

/-- A full simulation step never changes the connection flag. -/
theorem FactoryLM.simulate_connected (E : FactoryLM.Entropy) (s : FactoryLM.MockState) :
    (FactoryLM.simulate E s).connected = s.connected := by
  rw [FactoryLM.simulate, FactoryLM.simulateSensors_connected,
    FactoryLM.simulateMotor_connected]

/-- C1: for every non-negative `consecutiveFailures` value `n`, the computed
    backoff equals `min(baseDelay * 2^min(n,5), maxBackoffDelay)`; for a
    non-negative base delay it is monotone non-decreasing in `n`, and it never
    exceeds `maxBackoffDelay = 30.0`. -/
theorem C1_backoff_formula_monotone_capped (d : ℚ) (n m : Nat)
    (hd : 0 ≤ d) (hnm : n ≤ m) :
    FactoryLM.calculateBackoff d n = min (d * 2 ^ min n 5) FactoryLM.MAX_BACKOFF_DELAY ∧
    FactoryLM.calculateBackoff d n ≤ FactoryLM.calculateBackoff d m ∧
    FactoryLM.calculateBackoff d n ≤ FactoryLM.MAX_BACKOFF_DELAY := by
  refine ⟨rfl, ?_, min_le_right _ _⟩
  unfold FactoryLM.calculateBackoff
  refine min_le_min ?_ le_rfl
  refine mul_le_mul_of_nonneg_left ?_ hd
  exact pow_le_pow_right₀ (by norm_num) (min_le_min hnm le_rfl)

/-- Witness for C1 at `d = 1`, `n = 2`, `m = 7`. -/
theorem C1_backoff_witness :
    FactoryLM.calculateBackoff 1 2 = min ((1 : ℚ) * 2 ^ min 2 5) FactoryLM.MAX_BACKOFF_DELAY ∧
    FactoryLM.calculateBackoff 1 2 ≤ FactoryLM.calculateBackoff 1 7 ∧
    FactoryLM.calculateBackoff 1 2 ≤ FactoryLM.MAX_BACKOFF_DELAY :=
  C1_backoff_formula_monotone_capped 1 2 7 (by norm_num) (by norm_num)

/-- C2, counterexample: from the default initial state, `connect()` followed by
    `write_register(100, 50)` (a register write that updates the motor-stopped
    coil) succeeds but leaves `motor_running = False` and `motor_stopped =
    False`, so the coils are not complementary after that write. -/
theorem C2_counterexample :
    (FactoryLM.mockWriteRegister 100 50 (FactoryLM.mockConnect FactoryLM.mockInit).2).1
      = .ok true ∧
    ¬ ((FactoryLM.mockWriteRegister 100 50 (FactoryLM.mockConnect FactoryLM.mockInit).2).2.coils 0
        = !((FactoryLM.mockWriteRegister 100 50
              (FactoryLM.mockConnect FactoryLM.mockInit).2).2.coils 1)) := by
  decide

/-- C2, amended: after any `write_coil` to the motor-running coil (0) or the
    motor-stopped coil (1) the two coils are complementary, and a `write_coil`
    to any other address preserves complementarity; but a `write_register` to
    the motor-speed register updates only the motor-stopped coil and can break
    the invariant. -/
theorem C2_coil_write_complementary (s : FactoryLM.MockState) (v : Bool) (a : Int)
    (hc : s.connected = true) :
    ((FactoryLM.mockWriteCoil 0 v s).2.coils 0
      = !((FactoryLM.mockWriteCoil 0 v s).2.coils 1)) ∧
    ((FactoryLM.mockWriteCoil 1 v s).2.coils 0
      = !((FactoryLM.mockWriteCoil 1 v s).2.coils 1)) ∧
    (a ≠ 0 → a ≠ 1 → s.coils 0 = !(s.coils 1) →
      (FactoryLM.mockWriteCoil a v s).2.coils 0
        = !((FactoryLM.mockWriteCoil a v s).2.coils 1)) := by
  refine ⟨?_, ?_, ?_⟩
  · cases v <;> simp [FactoryLM.mockWriteCoil, hc]
  · cases v <;> simp [FactoryLM.mockWriteCoil, hc]
  · intro h0 h1 hinv
    have e0 : ((0 : Int) = a) = False := by simp [Ne.symm h0]
    have e1 : ((1 : Int) = a) = False := by simp [Ne.symm h1]
    simp [FactoryLM.mockWriteCoil, hc, h0, h1, e0, e1, hinv]

/-- Witness for C2's amended theorem at the connected initial state,
    `v = true`, `a = 3`. -/
theorem C2_coil_write_complementary_witness :
    ((FactoryLM.mockWriteCoil 0 true (FactoryLM.mockConnect FactoryLM.mockInit).2).2.coils 0
      = !((FactoryLM.mockWriteCoil 0 true
            (FactoryLM.mockConnect FactoryLM.mockInit).2).2.coils 1)) :=
  (C2_coil_write_complementary (FactoryLM.mockConnect FactoryLM.mockInit).2 true 3 rfl).1

/-- C7, counterexample: on a connected state with the motor running at speed 50
    (current 0, temperature 250), `read_coils` returns with motor current and
    temperature unchanged, although one `_simulate_behavior` step from that
    state updates the current to 20 and the temperature to 251 — so coil reads
    do not run a simulation step. -/
theorem C7_counterexample :
    (FactoryLM.mockReadCoils 0 7 FactoryLM.c7State).1
      = .ok [true, false, false, false, false, false, false] ∧
    (FactoryLM.mockReadCoils 0 7 FactoryLM.c7State).2.registers 101 = 0 ∧
    (FactoryLM.mockReadCoils 0 7 FactoryLM.c7State).2.registers 102 = 250 ∧
    (FactoryLM.simulate FactoryLM.zeroEntropy FactoryLM.c7State).registers 101 = 20 ∧
    (FactoryLM.simulate FactoryLM.zeroEntropy FactoryLM.c7State).registers 102 = 251 := by
  decide

/-- C7, amended: on a connected simulated client, a register read runs exactly
    one simulation step before returning values, a coil read runs none (it
    returns the stored coils with the state unchanged), and `read_state` runs
    two steps (one directly and one inside its nested register read). -/
theorem C7_read_simulation_steps (E : FactoryLM.Entropy) (s : FactoryLM.MockState)
    (a c : Int) (h : s.connected = true) :
    FactoryLM.mockReadCoils a c s
      = (.ok ((List.range c.toNat).map fun i => s.coils (a + Int.ofNat i)), s) ∧
    FactoryLM.mockReadHoldingRegisters E a c s
      = (.ok ((List.range c.toNat).map fun i =>
            (FactoryLM.simulate E s).registers (a + Int.ofNat i)),
         FactoryLM.simulate E s) ∧
    (FactoryLM.mockReadState E s).2
      = FactoryLM.simulate E (FactoryLM.simulate E s) := by
  have hc1 : (FactoryLM.simulate E s).connected = true := by
    rw [FactoryLM.simulate_connected]; exact h
  have hc2 : (FactoryLM.simulate E (FactoryLM.simulate E s)).connected = true := by
    rw [FactoryLM.simulate_connected]; exact hc1
  refine ⟨?_, ?_, ?_⟩
  · simp [FactoryLM.mockReadCoils, h]
  · simp [FactoryLM.mockReadHoldingRegisters, h]
  · simp [FactoryLM.mockReadState, h, FactoryLM.mockReadHoldingRegisters, hc1,
      FactoryLM.mockReadCoils, hc2]

/-- Witness for C7's amended theorem on the connected initial state. -/
theorem C7_read_simulation_steps_witness :
    (FactoryLM.mockReadState FactoryLM.zeroEntropy
        (FactoryLM.mockConnect FactoryLM.mockInit).2).2
      = FactoryLM.simulate FactoryLM.zeroEntropy
          (FactoryLM.simulate FactoryLM.zeroEntropy
            (FactoryLM.mockConnect FactoryLM.mockInit).2) :=
  (C7_read_simulation_steps FactoryLM.zeroEntropy
    (FactoryLM.mockConnect FactoryLM.mockInit).2 0 7 rfl).2.2

/-- C10: on a disconnected simulated client every data operation
    (`read_holding_registers`, `read_coils`, `write_register`, `write_coil`,
    `read_state`) raises `ConnectionError("MockPLC is not connected")` and
    leaves the state (register and coil stores included) unchanged, while
    `connect()` always succeeds, returns `True`, and only sets the connected
    flag. -/
theorem C10_disconnected_ops (E : FactoryLM.Entropy) (s : FactoryLM.MockState)
    (a c v : Int) (b : Bool) (h : s.connected = false) :
    FactoryLM.mockReadHoldingRegisters E a c s
      = (.error (.connectionError "MockPLC is not connected"), s) ∧
    FactoryLM.mockReadCoils a c s
      = (.error (.connectionError "MockPLC is not connected"), s) ∧
    FactoryLM.mockWriteRegister a v s
      = (.error (.connectionError "MockPLC is not connected"), s) ∧
    FactoryLM.mockWriteCoil a b s
      = (.error (.connectionError "MockPLC is not connected"), s) ∧
    FactoryLM.mockReadState E s
      = (.error (.connectionError "MockPLC is not connected"), s) ∧
    FactoryLM.mockConnect s = (true, { s with connected := true }) := by
  refine ⟨?_, ?_, ?_, ?_, ?_, rfl⟩ <;>
    simp [FactoryLM.mockReadHoldingRegisters, FactoryLM.mockReadCoils,
      FactoryLM.mockWriteRegister, FactoryLM.mockWriteCoil, FactoryLM.mockReadState, h]

/-- Witness for C10 on the default (never-connected) initial state. -/
theorem C10_disconnected_ops_witness :
    FactoryLM.mockReadCoils 0 7 FactoryLM.mockInit
      = (.error (.connectionError "MockPLC is not connected"), FactoryLM.mockInit) :=
  (C10_disconnected_ops FactoryLM.zeroEntropy FactoryLM.mockInit 0 7 0 false rfl).2.1

/-- When every scripted connect outcome in the attempt window is unsuccessful,
    the `ensure_connected` attempt loop returns failure, makes one connect call
    per attempt, bumps `_consecutive_failures` exactly once, and leaves the
    client disconnected. -/
theorem FactoryLM.ensureLoop_all_fail (script : Nat → FactoryLM.ConnectOutcome) :
    ∀ (n : Nat) (s : FactoryLM.CMState),
    (∀ i, i < n → script (s.connectCalls + i) ≠ .ok) →
    (FactoryLM.ensureLoop script n s).1 = false ∧
    (FactoryLM.ensureLoop script n s).2.consecutiveFailures = s.consecutiveFailures + 1 ∧
    (FactoryLM.ensureLoop script n s).2.connectCalls = s.connectCalls + n ∧
    (FactoryLM.ensureLoop script n s).2.clientConnected = s.clientConnected ∧
    (FactoryLM.ensureLoop script n s).2.funcCalls = s.funcCalls ∧
    (FactoryLM.ensureLoop script n s).2.connected = false := by
  intro n
  induction n with
  | zero =>
    intro s _
    exact ⟨rfl, rfl, (Nat.add_zero _).symm, rfl, rfl, rfl⟩
  | succ n ih =>
    intro s h
    have h0 := h 0 (Nat.succ_pos n)
    rw [Nat.add_zero] at h0
    have hshift : ∀ i, i < n → script (s.connectCalls + 1 + i) ≠ .ok := by
      intro i hi
      have hx := h (i + 1) (Nat.succ_lt_succ hi)
      have e : s.connectCalls + (i + 1) = s.connectCalls + 1 + i := by omega
      rw [e] at hx
      exact hx
    unfold FactoryLM.ensureLoop
    cases hs : script s.connectCalls with
    | ok => exact absurd hs h0
    | fail =>
      obtain ⟨e1, e2, e3, e4, e5, e6⟩ :=
        ih { s with connectCalls := s.connectCalls + 1 } hshift
      refine ⟨e1, e2, ?_, e4, e5, e6⟩
      rw [e3]
      show s.connectCalls + 1 + n = s.connectCalls + (n + 1)
      omega
    | exn msg =>
      obtain ⟨e1, e2, e3, e4, e5, e6⟩ :=
        ih { s with
              connectCalls := s.connectCalls + 1
              lastError := some (.connectionError msg) } hshift
      refine ⟨e1, e2, ?_, e4, e5, e6⟩
      rw [e3]
      show s.connectCalls + 1 + n = s.connectCalls + (n + 1)
      omega

/-- When the scripted connect outcomes fail before attempt `j` and succeed at
    attempt `j < n`, the `ensure_connected` attempt loop returns success,
    leaves the client connected, zeroes `_consecutive_failures`, and has made
    exactly `j + 1` connect calls. -/
theorem FactoryLM.ensureLoop_success (script : Nat → FactoryLM.ConnectOutcome) :
    ∀ (n j : Nat) (s : FactoryLM.CMState),
    j < n →
    script (s.connectCalls + j) = .ok →
    (∀ i, i < j → script (s.connectCalls + i) ≠ .ok) →
    (FactoryLM.ensureLoop script n s).1 = true ∧
    (FactoryLM.ensureLoop script n s).2.consecutiveFailures = 0 ∧
    (FactoryLM.ensureLoop script n s).2.connected = true ∧
    (FactoryLM.ensureLoop script n s).2.clientConnected = true ∧
    (FactoryLM.ensureLoop script n s).2.connectCalls = s.connectCalls + j + 1 := by
  intro n
  induction n with
  | zero => intro j s hj _ _; exact absurd hj (Nat.not_lt_zero j)
  | succ n ih =>
    intro j s hj hok hprev
    unfold FactoryLM.ensureLoop
    cases j with
    | zero =>
      rw [Nat.add_zero] at hok
      rw [hok]
      exact ⟨rfl, rfl, rfl, rfl, rfl⟩
    | succ j =>
      have h0 := hprev 0 (Nat.succ_pos j)
      rw [Nat.add_zero] at h0
      have hok' : script (s.connectCalls + 1 + j) = .ok := by
        have e : s.connectCalls + 1 + j = s.connectCalls + (j + 1) := by omega
        rw [e]
        exact hok
      have hprev' : ∀ i, i < j → script (s.connectCalls + 1 + i) ≠ .ok := by
        intro i hi
        have hx := hprev (i + 1) (Nat.succ_lt_succ hi)
        have e : s.connectCalls + (i + 1) = s.connectCalls + 1 + i := by omega
        rw [e] at hx
        exact hx
      cases hs : script s.connectCalls with
      | ok => exact absurd hs h0
      | fail =>
        obtain ⟨e1, e2, e3, e4, e5⟩ :=
          ih j { s with connectCalls := s.connectCalls + 1 }
            (Nat.lt_of_succ_lt_succ hj) hok' hprev'
        refine ⟨e1, e2, e3, e4, ?_⟩
        rw [e5]
        show s.connectCalls + 1 + j + 1 = s.connectCalls + (j + 1) + 1
        omega
      | exn msg =>
        obtain ⟨e1, e2, e3, e4, e5⟩ :=
          ih j { s with
                  connectCalls := s.connectCalls + 1
                  lastError := some (.connectionError msg) }
            (Nat.lt_of_succ_lt_succ hj) hok' hprev'
        refine ⟨e1, e2, e3, e4, ?_⟩
        rw [e5]
        show s.connectCalls + 1 + j + 1 = s.connectCalls + (j + 1) + 1
        omega

/-- C3, counterexample: a manager with `retry_count = 3`, `auto_reconnect`
    enabled and a client whose `connect()` fails on all three attempts makes
    3 failed connect attempts inside one `ensure_connected` call, yet
    `consecutive_failures` rises from 0 to 1, not to 3 as a per-attempt
    increment would require. -/
theorem C3_counterexample :
    (FactoryLM.ensureConnected ⟨3, 1, true⟩ (fun _ => .fail) FactoryLM.cmInit).1 = false ∧
    (FactoryLM.ensureConnected ⟨3, 1, true⟩
        (fun _ => .fail) FactoryLM.cmInit).2.connectCalls = 3 ∧
    (FactoryLM.ensureConnected ⟨3, 1, true⟩
        (fun _ => .fail) FactoryLM.cmInit).2.consecutiveFailures = 1 ∧
    (1 : Nat) ≠ 3 := by
  decide

/-- C3, amended: during `ensure_connected` with `auto_reconnect` enabled on a
    disconnected client, individual failed connect attempts do not change
    `consecutive_failures`; one `ensure_connected` call that exhausts all
    `retry_count` attempts without success increments the counter by exactly
    one, and a successful connect within the loop resets it to zero. -/
theorem C3_failure_counter (cfg : FactoryLM.RetryConfig)
    (script : Nat → FactoryLM.ConnectOutcome) (s : FactoryLM.CMState)
    (hclient : s.clientConnected = false) (hauto : cfg.autoReconnect = true) :
    ((∀ i, i < cfg.retryCount → script (s.connectCalls + i) ≠ .ok) →
      (FactoryLM.ensureConnected cfg script s).2.consecutiveFailures
        = s.consecutiveFailures + 1) ∧
    (∀ j, j < cfg.retryCount → script (s.connectCalls + j) = .ok →
      (∀ i, i < j → script (s.connectCalls + i) ≠ .ok) →
      (FactoryLM.ensureConnected cfg script s).2.consecutiveFailures = 0) := by
  have hred : FactoryLM.ensureConnected cfg script s
      = FactoryLM.ensureLoop script cfg.retryCount s := by
    simp [FactoryLM.ensureConnected, hclient, hauto]
  constructor
  · intro h
    rw [hred]
    exact (FactoryLM.ensureLoop_all_fail script cfg.retryCount s h).2.1
  · intro j hj hok hprev
    rw [hred]
    exact (FactoryLM.ensureLoop_success script cfg.retryCount j s hj hok hprev).2.1

/-- Witness for C3's amended theorem: with `retry_count = 2` and a script that
    fails once then succeeds, `consecutive_failures` ends at 0. -/
theorem C3_failure_counter_witness :
    (FactoryLM.ensureConnected ⟨2, 1, true⟩
        (fun n => if n = 0 then .fail else .ok)
        FactoryLM.cmInit).2.consecutiveFailures = 0 :=
  (C3_failure_counter ⟨2, 1, true⟩ (fun n => if n = 0 then .fail else .ok)
      FactoryLM.cmInit rfl rfl).2 1 (by decide) (by decide) (by decide)

/-- When `auto_reconnect` is on, the client starts disconnected, and every
    scripted `connect()` outcome is unsuccessful, each iteration of the
    `read_with_retry` loop invokes `ensure_connected` (adding `retry_count`
    connect calls) and catches its `ConnectionError`; only after the final
    iteration is `ConnectionError("Unable to connect to PLC")` re-raised. -/
theorem FactoryLM.readLoop_ensure_fail (cfg : FactoryLM.RetryConfig)
    (cscript : Nat → FactoryLM.ConnectOutcome) (fscript : Nat → FactoryLM.ReadOutcome)
    (hauto : cfg.autoReconnect = true) (hfail : ∀ i, cscript i ≠ .ok) :
    ∀ (n : Nat) (s : FactoryLM.CMState), 1 ≤ n → s.clientConnected = false →
    (FactoryLM.readLoop cfg cscript fscript n s).1
      = .error (.connectionError "Unable to connect to PLC") ∧
    (FactoryLM.readLoop cfg cscript fscript n s).2.connectCalls
      = s.connectCalls + n * cfg.retryCount := by
  intro n
  induction n with
  | zero => intro s h1 _; exact absurd h1 (by omega)
  | succ n ih =>
    intro s _ hc
    have hred : FactoryLM.ensureConnected cfg cscript s
        = FactoryLM.ensureLoop cscript cfg.retryCount s := by
      simp [FactoryLM.ensureConnected, hc, hauto]
    obtain ⟨e1, _, e3, e4, _, _⟩ :=
      FactoryLM.ensureLoop_all_fail cscript cfg.retryCount s (fun i _ => hfail _)
    unfold FactoryLM.readLoop
    rw [hred]
    dsimp only
    rw [e1]
    simp only [if_pos rfl]
    cases n with
    | zero =>
      refine ⟨rfl, ?_⟩
      show (FactoryLM.ensureLoop cscript cfg.retryCount s).2.connectCalls
        = s.connectCalls + 1 * cfg.retryCount
      rw [e3]
      omega
    | succ m =>
      have hc2 : (FactoryLM.onConnLost
          (FactoryLM.ensureLoop cscript cfg.retryCount s).2).clientConnected = false := by
        show (FactoryLM.ensureLoop cscript cfg.retryCount s).2.clientConnected = false
        rw [e4, hc]
      obtain ⟨f1, f2⟩ := ih (FactoryLM.onConnLost
          (FactoryLM.ensureLoop cscript cfg.retryCount s).2) (by omega) hc2
      have g1 : (FactoryLM.onConnLost
          (FactoryLM.ensureLoop cscript cfg.retryCount s).2).connectCalls
          = s.connectCalls + cfg.retryCount := e3
      have e5 : (FactoryLM.readLoop cfg cscript fscript (m + 1)
          (FactoryLM.onConnLost
            (FactoryLM.ensureLoop cscript cfg.retryCount s).2)).2.connectCalls
          = s.connectCalls + (m + 1 + 1) * cfg.retryCount := by
        rw [f2, g1, Nat.add_mul (m + 1) 1 cfg.retryCount]
        omega
      exact ⟨f1, e5⟩

/-- C4, counterexample: a manager with `retry_count = 2`, `auto_reconnect`
    enabled and a client whose `connect()` always fails: one `read_with_retry`
    call makes 4 connect calls — two full `ensure_connected` invocations of 2
    attempts each — before `ConnectionError("Unable to connect to PLC")`
    reaches the caller, so the first internal raise was absorbed and
    re-attempted within the same call rather than surfaced immediately. -/
theorem C4_counterexample :
    (FactoryLM.readWithRetry ⟨2, 1, true⟩ (fun _ => .fail) (fun _ => .ok 0)
        FactoryLM.cmInit).1 = .error (.connectionError "Unable to connect to PLC") ∧
    (FactoryLM.readWithRetry ⟨2, 1, true⟩ (fun _ => .fail) (fun _ => .ok 0)
        FactoryLM.cmInit).2.connectCalls = 4 ∧
    (4 : Nat) ≠ 2 := by
  decide

/-- C4, amended: when `ensure_connected` fails inside `read_with_retry`, the
    raised `ConnectionError("Unable to connect to PLC")` is caught by the same
    call's retry loop, which re-attempts (re-invoking `ensure_connected`, hence
    `retry_count` further connect calls per iteration); the error propagates to
    the caller only after all `retry_count` loop iterations have failed. -/
theorem C4_read_conn_error (cfg : FactoryLM.RetryConfig)
    (cscript : Nat → FactoryLM.ConnectOutcome) (fscript : Nat → FactoryLM.ReadOutcome)
    (s : FactoryLM.CMState) (hauto : cfg.autoReconnect = true)
    (hclient : s.clientConnected = false) (hfail : ∀ i, cscript i ≠ .ok)
    (hrc : 1 ≤ cfg.retryCount) :
    (FactoryLM.readWithRetry cfg cscript fscript s).1
      = .error (.connectionError "Unable to connect to PLC") ∧
    (FactoryLM.readWithRetry cfg cscript fscript s).2.connectCalls
      = s.connectCalls + cfg.retryCount * cfg.retryCount :=
  FactoryLM.readLoop_ensure_fail cfg cscript fscript hauto hfail
    cfg.retryCount s hrc hclient

/-- Witness for C4's amended theorem at `retry_count = 2` and an
    always-failing connect script. -/
theorem C4_read_conn_error_witness :
    (FactoryLM.readWithRetry ⟨2, 1, true⟩ (fun _ => .fail) (fun _ => .ok 0)
        FactoryLM.cmInit).1 = .error (.connectionError "Unable to connect to PLC") ∧
    (FactoryLM.readWithRetry ⟨2, 1, true⟩ (fun _ => .fail) (fun _ => .ok 0)
        FactoryLM.cmInit).2.connectCalls = 0 + 2 * 2 :=
  C4_read_conn_error ⟨2, 1, true⟩ (fun _ => .fail) (fun _ => .ok 0)
    FactoryLM.cmInit rfl rfl (fun i => by simp) (by decide)

/-- When the client stays connected and the write closure returns a falsy
    result on every attempt, each iteration of the `write_with_retry` loop
    invokes the closure once and converts the falsy return into
    `IOError("Write operation returned False")`, retried until the final
    attempt re-raises it. -/
theorem FactoryLM.writeLoop_all_false (cfg : FactoryLM.RetryConfig)
    (cscript : Nat → FactoryLM.ConnectOutcome) (wscript : Nat → FactoryLM.WriteOutcome)
    (hw : ∀ i, wscript i = .ret false) :
    ∀ (n : Nat) (s : FactoryLM.CMState), 1 ≤ n → s.clientConnected = true →
    (FactoryLM.writeLoop cfg cscript wscript n s).1
      = .error (.ioError "Write operation returned False") ∧
    (FactoryLM.writeLoop cfg cscript wscript n s).2.funcCalls = s.funcCalls + n := by
  intro n
  induction n with
  | zero => intro s h1 _; exact absurd h1 (by omega)
  | succ n ih =>
    intro s _ hc
    have hred : FactoryLM.ensureConnected cfg cscript s
        = (true, { s with connected := true }) := by
      simp [FactoryLM.ensureConnected, hc]
    unfold FactoryLM.writeLoop
    rw [hred]
    dsimp only
    rw [hw]
    cases n with
    | zero =>
      refine ⟨rfl, ?_⟩
      show s.funcCalls + 1 = s.funcCalls + (0 + 1)
      omega
    | succ m =>
      obtain ⟨f1, f2⟩ := ih
        { s with
          connected := true
          funcCalls := s.funcCalls + 1
          consecutiveFailures := s.consecutiveFailures + 1
          lastError := some (.ioError "Write operation returned False") }
        (by omega) hc
      refine ⟨f1, ?_⟩
      have e5 : (FactoryLM.writeLoop cfg cscript wscript (m + 1)
          { s with
            connected := true
            funcCalls := s.funcCalls + 1
            consecutiveFailures := s.consecutiveFailures + 1
            lastError := some (.ioError "Write operation returned False") }).2.funcCalls
          = s.funcCalls + (m + 1 + 1) := by
        rw [f2]
        show s.funcCalls + 1 + (m + 1) = s.funcCalls + (m + 1 + 1)
        omega
      exact e5

/-- C8: when every invocation of the write closure returns a falsy value
    without raising, `write_with_retry` on a connected client treats each such
    return as the retryable soft failure `IOError("Write operation returned
    False")`, invokes the closure once per attempt up to the full
    `retry_count` budget, and finally raises that `IOError` to the caller
    instead of returning `False`. -/
theorem C8_write_false_retries (cfg : FactoryLM.RetryConfig)
    (cscript : Nat → FactoryLM.ConnectOutcome) (wscript : Nat → FactoryLM.WriteOutcome)
    (s : FactoryLM.CMState) (hw : ∀ i, wscript i = .ret false)
    (hc : s.clientConnected = true) (hrc : 1 ≤ cfg.retryCount) :
    (FactoryLM.writeWithRetry cfg cscript wscript s).1
      = .error (.ioError "Write operation returned False") ∧
    (FactoryLM.writeWithRetry cfg cscript wscript s).2.funcCalls
      = s.funcCalls + cfg.retryCount :=
  FactoryLM.writeLoop_all_false cfg cscript wscript hw cfg.retryCount s hrc hc

/-- Witness for C8 at `retry_count = 3` on a connected client with an
    always-falsy write closure: the closure runs 3 times and the call raises
    the `IOError`. -/
theorem C8_write_false_retries_witness :
    (FactoryLM.writeWithRetry ⟨3, 1, true⟩ (fun _ => .ok) (fun _ => .ret false)
        { FactoryLM.cmInit with clientConnected := true }).1
      = .error (.ioError "Write operation returned False") ∧
    (FactoryLM.writeWithRetry ⟨3, 1, true⟩ (fun _ => .ok) (fun _ => .ret false)
        { FactoryLM.cmInit with clientConnected := true }).2.funcCalls = 0 + 3 :=
  C8_write_false_retries ⟨3, 1, true⟩ (fun _ => .ok) (fun _ => .ret false)
    { FactoryLM.cmInit with clientConnected := true }
    (fun i => rfl) rfl (by decide)

/-- C5: for every coil address outside the writable set, `write_coil` on a
    connected service fails with a `ValueError` whose message names the
    attempted address and lists the writable set, and issues zero write calls
    to the underlying client (whatever that client would have returned). -/
theorem C5_write_coil_validation (address : Int) (value wr : Bool)
    (h : address ∉ FactoryLM.WRITABLE_COILS) :
    FactoryLM.svcWriteCoil true wr address value
      = (.error (.valueError ("Address " ++ toString address
          ++ " is not writable. Writable: " ++ toString FactoryLM.WRITABLE_COILS)), 0) := by
  simp [FactoryLM.svcWriteCoil, h]

/-- Witness for C5 at address 8 (outside `{0..6, 15..17}`). -/
theorem C5_write_coil_validation_witness :
    FactoryLM.svcWriteCoil true true 8 true
      = (.error (.valueError ("Address " ++ toString (8 : Int)
          ++ " is not writable. Writable: " ++ toString FactoryLM.WRITABLE_COILS)), 0) :=
  C5_write_coil_validation 8 true true (by decide)

/-- C6: for any collected probe results in which every entry is `online` (with
    a latency) or `timeout`, `get_online_devices` returns exactly the online
    subset projected to `DeviceInfo` (as a permutation of that projection),
    sorted ascending by latency, and reports the total scanned count
    `len(results)`. -/
theorem C6_get_online_devices (results : List FactoryLM.ScanResult)
    (hst : ∀ r ∈ results, r.status = "online" ∨ r.status = "timeout")
    (hlat : ∀ r ∈ results, r.status = "online" → r.response_time_ms.isSome = true) :
    ((FactoryLM.get_online_devices results).1).Perm (FactoryLM.projectOnline results) ∧
    List.Sorted FactoryLM.devLe (FactoryLM.get_online_devices results).1 ∧
    (FactoryLM.get_online_devices results).2 = results.length := by
  refine ⟨?_, ?_, rfl⟩
  · exact List.perm_insertionSort FactoryLM.devLe (FactoryLM.projectOnline results)
  · exact List.sorted_insertionSort FactoryLM.devLe (FactoryLM.projectOnline results)

/-- Witness for C6 on three probe results (one timeout, two online with
    latencies 5 and 2). -/
theorem C6_get_online_devices_witness :
    ((FactoryLM.get_online_devices
        [⟨"10.0.0.1", 502, "timeout", none, none⟩,
         ⟨"10.0.0.2", 502, "online", some 5, none⟩,
         ⟨"10.0.0.3", 502, "online", some 2, none⟩]).1).Perm
      (FactoryLM.projectOnline
        [⟨"10.0.0.1", 502, "timeout", none, none⟩,
         ⟨"10.0.0.2", 502, "online", some 5, none⟩,
         ⟨"10.0.0.3", 502, "online", some 2, none⟩]) ∧
    List.Sorted FactoryLM.devLe
      (FactoryLM.get_online_devices
        [⟨"10.0.0.1", 502, "timeout", none, none⟩,
         ⟨"10.0.0.2", 502, "online", some 5, none⟩,
         ⟨"10.0.0.3", 502, "online", some 2, none⟩]).1 ∧
    (FactoryLM.get_online_devices
        [⟨"10.0.0.1", 502, "timeout", none, none⟩,
         ⟨"10.0.0.2", 502, "online", some 5, none⟩,
         ⟨"10.0.0.3", 502, "online", some 2, none⟩]).2 = 3 :=
  C6_get_online_devices
    [⟨"10.0.0.1", 502, "timeout", none, none⟩,
     ⟨"10.0.0.2", 502, "online", some 5, none⟩,
     ⟨"10.0.0.3", 502, "online", some 2, none⟩]
    (by decide) (by decide)

/-- C9: every scan request with `start > end` is rejected with a 400
    `HTTPException` whose detail names both bounds, before the scanner is
    constructed or invoked — so no probe and no network I/O occurs. -/
theorem C9_scan_rejects_inverted_range
    (scanResults : String → Int → Int → List FactoryLM.ScanResult)
    (req : FactoryLM.ScanRequest) (h : req.start > req.endSuffix) :
    FactoryLM.scan_network scanResults req
      = (.error ⟨400, "start (" ++ toString req.start ++ ") must be <= end ("
            ++ toString req.endSuffix ++ ")"⟩, false) := by
  simp [FactoryLM.scan_network, h]

/-- Witness for C9 at `start = 5 > end = 1`. -/
theorem C9_scan_rejects_inverted_range_witness :
    FactoryLM.scan_network (fun _ _ _ => []) ⟨"192.168.1", 5, 1, 1⟩
      = (.error ⟨400, "start (" ++ toString (5 : Int) ++ ") must be <= end ("
            ++ toString (1 : Int) ++ ")"⟩, false) :=
  C9_scan_rejects_inverted_range (fun _ _ _ => []) ⟨"192.168.1", 5, 1, 1⟩ (by decide)
